import Mathlib

/-!
Shallow embedding of `src/Assets/generate_icon.py` (the icon generator of
QianTerminalCode) together with theorems settling the specification claims.

The Python program is a one-shot, input-free image-composition pipeline:
it builds a 256x256 RGBA canvas (gradient border badge, dark inner panel,
two glowing glyphs), resamples it to six fixed sizes, and writes an ICO
container plus a reference PNG.  Pure pixel arithmetic is embedded with
exact `Nat`/`Int` arithmetic (Python's `int(...)` of a nonnegative quotient
is floor division); drawing calls are embedded as the data the program
passes to the imaging library; library primitives whose kernels the program
does not control (Lanczos resampling, line rasterisation) are parameters of
the model, while their documented size/identity behaviour is embedded.
-/

namespace IconGen

/-! ### Colors (RGBA, 8-bit channels) -/

structure Color where
  r : Nat
  g : Nat
  b : Nat
  a : Nat
deriving DecidableEq, Repr

/-- `color_cyan = (0, 212, 255)` with alpha `a` appended, as in
`color_cyan + (alpha,)`. -/
def color_cyan (a : Nat) : Color := ⟨0, 212, 255, a⟩

/-- `color_purple = (189, 0, 255)` with alpha `a` appended. -/
def color_purple (a : Nat) : Color := ⟨189, 0, 255, a⟩

/-- `color_bg = (10, 10, 18)`; an RGB fill on an RGBA image gets alpha 255. -/
def color_bg : Color := ⟨10, 10, 18, 255⟩

/-- `color_white = (255, 255, 255)`; an RGB fill on an RGBA image gets alpha 255. -/
def color_white : Color := ⟨255, 255, 255, 255⟩

/-! ### `create_gradient`: the diagonal gradient mask

The Python loop appends `int(255 * p)` with `p = (x + y) / (width + height)`
row by row (`y` outer, `x` inner) and feeds the list to `putdata`, so the
mask pixel `(x, y)` is list entry `y * width + x`.  All quantities are
nonnegative, so the `int` cast truncates downwards: with exact arithmetic it
is the floor `255 * (x + y) / (width + height)` of the quotient. -/

/-- Value `int(255 * (x + y) / (width + height))` computed by the body of the
gradient loop, as exact floor division on `Nat`. -/
def gradMaskValue (width height x y : Nat) : Nat :=
  255 * (x + y) / (width + height)

/-- One row (`for x in range(width)`) of the gradient mask data. -/
def gradRow (width height y : Nat) : List Nat :=
  (List.range width).map (fun x => gradMaskValue width height x y)

/-- The whole `mask_data` list built by the nested loop in `create_gradient`
(`for y in range(height): for x in range(width): ...append(...)`). -/
def mask_data (width height : Nat) : List Nat :=
  (List.range height).flatMap (fun y => gradRow width height y)

/-! ### Generic indexing lemma for the row-major list -/

theorem bind_range_length (g : Nat → List α) (w : Nat)
    (hg : ∀ y, (g y).length = w) (h : Nat) :
    ((List.range h).flatMap g).length = h * w := by
  induction h with
  | zero => simp
  | succ n ih =>
      rw [List.range_succ, List.flatMap_append, List.length_append, ih]
      simp [hg, Nat.succ_mul]

theorem bind_range_getElem (g : Nat → List α) (w : Nat)
    (hg : ∀ y, (g y).length = w) (h y x : Nat) (hy : y < h) (hx : x < w) :
    ((List.range h).flatMap g)[y * w + x]? = (g y)[x]? := by
  induction h with
  | zero => omega
  | succ n ih =>
      rw [List.range_succ, List.flatMap_append]
      rcases Nat.lt_or_ge y n with hyn | hyn
      · have hlt : y * w + x < ((List.range n).flatMap g).length := by
          rw [bind_range_length g w hg]
          calc y * w + x < y * w + w := by omega
            _ = (y + 1) * w := by ring
            _ ≤ n * w := Nat.mul_le_mul_right w (by omega)
        rw [List.getElem?_append_left hlt]
        exact ih hyn
      · have hyeq : y = n := by omega
        subst hyeq
        rw [List.getElem?_append_right (by simp [bind_range_length g w hg])]
        simp [bind_range_length g w hg]

theorem gradRow_length (width height y : Nat) :
    (gradRow width height y).length = width := by
  simp [gradRow]

theorem gradRow_getElem (width height y x : Nat) (hx : x < width) :
    (gradRow width height y)[x]? = some (gradMaskValue width height x y) := by
  simp [gradRow, List.getElem?_map, List.getElem?_range hx]

/-- The mask pixel `(x, y)` of `create_gradient` is exactly the truncated
formula, for every in-bounds pixel. -/
theorem mask_data_getElem (width height x y : Nat)
    (hx : x < width) (hy : y < height) :
    (mask_data width height)[y * width + x]? =
      some (255 * (x + y) / (width + height)) := by
  rw [mask_data,
    bind_range_getElem (gradRow width height) width
      (gradRow_length width height) height y x hy hx,
    gradRow_getElem width height y x hx]
  rfl

/-! ### Configuration constants of `generate_app_icon` -/

def size : Nat := 256
def padding : Nat := 20
def border_width : Nat := 8
def corner_radius : Nat := 60

/-- `center_x, center_y = size // 2, size // 2`. -/
def center_x : Int := (size : Int) / 2
def center_y : Int := (size : Int) / 2

/-! ### Glyph draw calls

The glyphs are drawn through the imaging library (`draw.line`,
`draw.rectangle`); the program controls exactly the arguments it passes, so
the embedding records each call's arguments in program order. -/

/-- A `draw.line(points, fill, width, joint)` call. -/
structure LineDraw where
  pts : List (Int × Int)
  color : Color
  width : Nat
  joint_curve : Bool
deriving DecidableEq, Repr

/-- A `draw.rectangle([x0, y0, x1, y1], fill)` call. -/
structure RectDraw where
  x0 : Int
  y0 : Int
  x1 : Int
  y1 : Int
  color : Color
deriving DecidableEq, Repr

def arrow_width : Nat := 20
def arrow_size : Int := 60
def arrow_offset_x : Int := -30

/-- `p1 = (center_x + arrow_offset_x - arrow_size//2, center_y - arrow_size)`. -/
def p1 : Int × Int := (center_x + arrow_offset_x - arrow_size / 2, center_y - arrow_size)
/-- `p2 = (center_x + arrow_offset_x + arrow_size//2, center_y)`. -/
def p2 : Int × Int := (center_x + arrow_offset_x + arrow_size / 2, center_y)
/-- `p3 = (center_x + arrow_offset_x - arrow_size//2, center_y + arrow_size)`. -/
def p3 : Int × Int := (center_x + arrow_offset_x - arrow_size / 2, center_y + arrow_size)

/-- `alpha = int(50 / i)` computed in both glow loops: floor of the
nonnegative quotient. -/
def glowAlpha (i : Nat) : Nat := 50 / i

/-- The counter sequence of `for i in range(5, 0, -1)`: `[5, 4, 3, 2, 1]`. -/
def glowRange : List Nat := (List.range 5).map (fun j => 5 - j)

/-- Body of the chevron glow loop at counter `i`:
`draw.line([p1, p2, p3], fill=color_cyan+(alpha,), width=arrow_width+i*4, joint='curve')`. -/
def chevronGlowDraw (i : Nat) : LineDraw :=
  ⟨[p1, p2, p3], color_cyan (glowAlpha i), arrow_width + i * 4, true⟩

def chevronGlowDraws : List LineDraw := glowRange.map chevronGlowDraw

/-- `draw.line([p1, p2, p3], fill=color_white, width=arrow_width, joint='curve')`. -/
def chevronTopDraw : LineDraw := ⟨[p1, p2, p3], color_white, arrow_width, true⟩

/-- All chevron line draws in program order: the five glow passes followed by
the sharp top stroke. -/
def chevronDraws : List LineDraw := chevronGlowDraws ++ [chevronTopDraw]

def cursor_w : Int := 50
def cursor_h : Int := 15
def cursor_x : Int := center_x + 30
def cursor_y : Int := center_y + 40

/-- Body of the cursor glow loop at counter `i`: the base rectangle expanded
by `expand = i * 3` on all sides, filled `color_purple + (alpha,)`. -/
def cursorGlowDraw (i : Nat) : RectDraw :=
  ⟨cursor_x - i * 3, cursor_y - i * 3,
   cursor_x + cursor_w + i * 3, cursor_y + cursor_h + i * 3,
   color_purple (glowAlpha i)⟩

def cursorGlowDraws : List RectDraw := glowRange.map cursorGlowDraw

/-- `draw.rectangle(cursor_rect, fill=color_purple)`: the un-expanded
rectangle at full opacity. -/
def cursorTopDraw : RectDraw :=
  ⟨cursor_x, cursor_y, cursor_x + cursor_w, cursor_y + cursor_h, color_purple 255⟩

/-- All cursor rectangle draws in program order. -/
def cursorDraws : List RectDraw := cursorGlowDraws ++ [cursorTopDraw]

/-! ### The two rounded-rectangle masks -/

/-- A rectangular bounding box `[(x0, y0), (x1, y1)]`. -/
structure BBox where
  x0 : Int
  y0 : Int
  x1 : Int
  y1 : Int
deriving DecidableEq, Repr

/-- Bounding box of the outer badge mask:
`[(padding, padding), (size - padding, size - padding)]`. -/
def mask_bbox : BBox :=
  ⟨(padding : Int), (padding : Int), (size : Int) - padding, (size : Int) - padding⟩

/-- `inner_padding = padding + border_width`. -/
def inner_padding : Nat := padding + border_width

/-- Bounding box of the inner panel mask:
`[(inner_padding, inner_padding), (size - inner_padding, size - inner_padding)]`. -/
def inner_bbox : BBox :=
  ⟨(inner_padding : Int), (inner_padding : Int),
   (size : Int) - inner_padding, (size : Int) - inner_padding⟩

/-- Corner radius of the inner panel mask: `corner_radius - 5`. -/
def inner_corner_radius : Nat := corner_radius - 5

/-! ### Raster images and masked compositing -/

/-- An in-memory RGBA raster: dimensions plus a pixel accessor. -/
structure Img where
  w : Nat
  h : Nat
  px : Nat → Nat → Color

/-- One colour channel of PIL's paste-with-mask compositing: where the mask
is 255 the pasted value is copied as is, where it is 0 the base value is
kept, and intermediate values interpolate linearly. -/
def blendChannel (m base top : Nat) : Nat :=
  (base * (255 - m) + top * m) / 255

def blendColor (m : Nat) (base top : Color) : Color :=
  ⟨blendChannel m base.r top.r, blendChannel m base.g top.g,
   blendChannel m base.b top.b, blendChannel m base.a top.a⟩

theorem blendChannel_zero (base top : Nat) : blendChannel 0 base top = base := by
  simp [blendChannel]

theorem blendChannel_full (base top : Nat) : blendChannel 255 base top = top := by
  simp [blendChannel]

theorem blendColor_zero (base top : Color) : blendColor 0 base top = base := by
  simp [blendColor, blendChannel_zero]

/-- `base.paste(top, (0, 0), mask)`: masked compositing at offset (0,0); the
result keeps the base image's dimensions. -/
def pasteMask (base top : Img) (mask : Nat → Nat → Nat) : Img :=
  ⟨base.w, base.h, fun x y => blendColor (mask x y) (base.px x y) (top.px x y)⟩

/-! ### Rounded-rectangle masks

`ImageDraw.rounded_rectangle(bbox, radius, fill=255)` on an all-zero `L`
image yields a mask that is 255 inside the rounded rectangle and 0 outside;
the spec treats the library's anti-aliasing of boundary pixels as
non-contractual, so the embedding is the crisp membership test. -/

/-- Point-in-rounded-rectangle: inside the bounding box, and within the
corner radius circle when in a corner band. -/
def inRoundedRect (b : BBox) (r : Int) (x y : Int) : Bool :=
  decide (b.x0 ≤ x) && decide (x ≤ b.x1) && decide (b.y0 ≤ y) && decide (y ≤ b.y1) &&
    (let dx := max (b.x0 + r - x) (max (x - (b.x1 - r)) 0)
     let dy := max (b.y0 + r - y) (max (y - (b.y1 - r)) 0)
     decide (dx ^ 2 + dy ^ 2 ≤ r ^ 2))

/-- Mask pixel value of a filled rounded rectangle. -/
def roundedMaskValue (b : BBox) (r : Int) (x y : Nat) : Nat :=
  if inRoundedRect b r x y then 255 else 0

/-- The outer badge mask (`mask` in the source, filled at `corner_radius`). -/
def outerMaskValue (x y : Nat) : Nat :=
  roundedMaskValue mask_bbox (corner_radius : Int) x y

/-- The inner panel mask (`inner_mask`, filled at `corner_radius - 5`). -/
def innerMaskValue (x y : Nat) : Nat :=
  roundedMaskValue inner_bbox (inner_corner_radius : Int) x y

/-! ### The compositing pipeline (steps 1-5 of `generate_app_icon`) -/

/-- Step 1: `Image.new('RGBA', (size, size), (0, 0, 0, 0))`. -/
def transparentBase : Img := ⟨size, size, fun _ _ => ⟨0, 0, 0, 0⟩⟩

/-- The gradient canvas `create_gradient(size, size, color_cyan, color_purple)`:
a cyan fill with the purple fill pasted through the diagonal mask (whose
pixel `(x, y)` is `mask_data` entry `y * size + x`, i.e. `gradMaskValue`). -/
def gradient_canvas : Img :=
  pasteMask ⟨size, size, fun _ _ => color_cyan 255⟩
    ⟨size, size, fun _ _ => color_purple 255⟩
    (fun x y => gradMaskValue size size x y)

/-- Step 4: `icon_shape.paste(gradient, (0,0), mask)` onto a fresh
transparent canvas. -/
def icon_shape_bordered : Img :=
  pasteMask transparentBase gradient_canvas outerMaskValue

/-- `dark_layer = Image.new('RGBA', (size, size), color_bg)`. -/
def dark_layer : Img := ⟨size, size, fun _ _ => color_bg⟩

/-- Step 5: `icon_shape.paste(dark_layer, (0,0), inner_mask)`. -/
def icon_shape_paneled : Img :=
  pasteMask icon_shape_bordered dark_layer innerMaskValue

/-! ### Resampling and outputs (steps 7 and the save calls)

The Lanczos kernel itself is a parameter of the model; what the embedding
fixes is the library's size behaviour: `Image.resize(s, filter)` returns an
unchanged copy when the target size equals the source size and the box is
the whole image (the fast path of PIL's `Image.resize`), and applies the
resampling filter otherwise. -/

def resize (filter : Img → Nat × Nat → Img) (img : Img) (s : Nat × Nat) : Img :=
  if (img.w, img.h) = s then img else filter img s

/-- `sizes = [(256, 256), (128, 128), (64, 64), (48, 48), (32, 32), (16, 16)]`. -/
def sizes : List (Nat × Nat) :=
  [(256, 256), (128, 128), (64, 64), (48, 48), (32, 32), (16, 16)]

/-- The `icon_images` list: one Lanczos-resized copy per entry of `sizes`,
in order. -/
def icon_images (filter : Img → Nat × Nat → Img) (canvas : Img) : List Img :=
  sizes.map (fun s => resize filter canvas s)

/-- The frame list embedded in the ICO container by
`icon_images[0].save(..., append_images=icon_images[1:])`: the base frame
followed by the remaining frames, in order. -/
def ico_frames (filter : Img → Nat × Nat → Img) (canvas : Img) : List Img :=
  (icon_images filter canvas).take 1 ++ (icon_images filter canvas).drop 1

/-- The standalone PNG encodes the native canvas directly
(`icon_shape.save(png_path, format='PNG')`): no resampling is applied. -/
def png_image (canvas : Img) : Img := canvas

/-! ### Filesystem side effects -/

/-- The observable filesystem state at the fixed output directory. -/
structure FsState where
  dirExists : Bool
  icoFile : Option (List Img)
  pngFile : Option Img

/-- `os.makedirs(output_dir)`: raises `FileExistsError` when the directory
already exists, creates it otherwise. -/
def makedirs (fs : FsState) : Except String FsState :=
  if fs.dirExists then .error "FileExistsError" else .ok { fs with dirExists := true }

/-- Lines 103-104: `if not os.path.exists(output_dir): os.makedirs(output_dir)`. -/
def ensure_output_dir (fs : FsState) : Except String FsState :=
  if fs.dirExists then .ok fs else makedirs fs

/-- The imaging-library primitives the generator invokes with the recorded
arguments; each is an arbitrary deterministic function. -/
structure Raster where
  drawLine : Img → LineDraw → Img
  drawRect : Img → RectDraw → Img
  filter : Img → Nat × Nat → Img

/-- The fully drawn `icon_shape` canvas: the paneled badge with the chevron
line draws and then the cursor rectangle draws applied in program order. -/
def icon_shape (R : Raster) : Img :=
  cursorDraws.foldl R.drawRect (chevronDraws.foldl R.drawLine icon_shape_paneled)

/-- The whole of `generate_app_icon` as a filesystem transformer: ensure the
output directory, then write the ICO frames and the PNG (overwriting any
previous contents). -/
def generate_app_icon (R : Raster) (fs : FsState) : Except String FsState :=
  (ensure_output_dir fs).map fun fs1 =>
    { fs1 with
      icoFile := some (ico_frames R.filter (icon_shape R))
      pngFile := some (png_image (icon_shape R)) }

/-! ## Claim theorems -/

/-- C1: for every width ≥ 1, height ≥ 1 and every in-bounds pixel `(x, y)`,
the gradient mask value produced by `create_gradient` (the `mask_data` entry
`y * width + x` fed to `putdata`) equals the integer truncation of
`255 * ((x + y) / (width + height))`; in particular the value at `(0, 0)` is
0 and the value at `(width - 1, height - 1)` equals the exact formula's
truncation (not necessarily 255). -/
theorem C1_gradient_mask_formula (width height x y : Nat)
    (hw : 1 ≤ width) (hh : 1 ≤ height) (hx : x < width) (hy : y < height) :
    (mask_data width height)[y * width + x]? =
        some (255 * (x + y) / (width + height)) ∧
    (mask_data width height)[0]? = some 0 ∧
    (mask_data width height)[(height - 1) * width + (width - 1)]? =
        some (255 * ((width - 1) + (height - 1)) / (width + height)) := by
  refine ⟨mask_data_getElem width height x y hx hy, ?_, ?_⟩
  · have h0 := mask_data_getElem width height 0 0 (by omega) (by omega)
    simpa [gradMaskValue] using h0
  · exact mask_data_getElem width height (width - 1) (height - 1)
      (by omega) (by omega)

theorem C1_witness :
    (mask_data 4 3)[1 * 4 + 2]? = some (255 * (2 + 1) / (4 + 3)) ∧
    (mask_data 4 3)[0]? = some 0 ∧
    (mask_data 4 3)[(3 - 1) * 4 + (4 - 1)]? =
        some (255 * ((4 - 1) + (3 - 1)) / (4 + 3)) :=
  C1_gradient_mask_formula 4 3 2 1 (by decide) (by decide) (by decide) (by decide)

/-- C10: for every width ≥ 1, height ≥ 1 and every in-bounds pixel, the
gradient mask value `int(255 * (x + y) / (width + height))` is strictly less
than 255 (since `x + y ≤ width + height - 2`), so the end colour is never
composited at full opacity; for the 256x256 canvas the maximum mask value,
at `(255, 255)`, is 254. -/
theorem C10_mask_below_full_opacity (width height x y : Nat)
    (hw : 1 ≤ width) (hh : 1 ≤ height) (hx : x < width) (hy : y < height) :
    gradMaskValue width height x y < 255 ∧
    gradMaskValue 256 256 255 255 = 254 := by
  constructor
  · have hpos : 0 < width + height := by omega
    rw [gradMaskValue, Nat.div_lt_iff_lt_mul hpos]
    omega
  · norm_num [gradMaskValue]

theorem C10_witness :
    gradMaskValue 256 256 255 255 < 255 ∧ gradMaskValue 256 256 255 255 = 254 :=
  C10_mask_below_full_opacity 256 256 255 255
    (by decide) (by decide) (by decide) (by decide)

/-- C2 counterexample: the claim says the glow stroke at layer `i` has alpha
`round(50 / i)`, but the code computes `int(50 / i)`; at `i = 3` the chevron
glow draw (list position `5 - 3 = 2`) carries alpha `int(50/3) = 16` while
`round(50/3) = 17`. -/
theorem C2_alpha_not_rounded :
    chevronDraws[2]?.map (fun d => (d.color.a : ℤ)) ≠
      some (round ((50 : ℚ) / 3)) := by
  have hc : chevronDraws[2]?.map (fun d => (d.color.a : ℤ)) = some 16 := by decide
  have hr : round ((50 : ℚ) / 3) = 17 := by norm_num [round_eq]
  rw [hc, hr]
  decide

/-- C2 (amended): for both glyphs' glow passes, for every `i` from 5 down to
1, the draw at layer `i` (list position `5 - i`) has alpha equal to the
integer truncation `int(50 / i)` (not the rounding of `50 / i`); the chevron
layer has stroke width `arrow_width + i * 4` over the points `[p1, p2, p3]`
with curved joints, and the cursor layer is the base rectangle expanded
outward by `i * 3` pixels on all sides. -/
theorem C2_glow_layer_parameters (i : Nat) (h1 : 1 ≤ i) (h5 : i ≤ 5) :
    chevronDraws[5 - i]? =
      some ⟨[p1, p2, p3], color_cyan (50 / i), arrow_width + i * 4, true⟩ ∧
    cursorDraws[5 - i]? =
      some ⟨cursor_x - i * 3, cursor_y - i * 3,
            cursor_x + cursor_w + i * 3, cursor_y + cursor_h + i * 3,
            color_purple (50 / i)⟩ := by
  interval_cases i <;> exact ⟨by decide, by decide⟩

theorem C2_witness :
    chevronDraws[5 - 3]? =
      some ⟨[p1, p2, p3], color_cyan (50 / 3), arrow_width + 3 * 4, true⟩ ∧
    cursorDraws[5 - 3]? =
      some ⟨cursor_x - 3 * 3, cursor_y - 3 * 3,
            cursor_x + cursor_w + 3 * 3, cursor_y + cursor_h + 3 * 3,
            color_purple (50 / 3)⟩ :=
  C2_glow_layer_parameters 3 (by decide) (by decide)

/-- C5: the inner rounded mask's bounding box is shrunk relative to the outer
one by exactly `border_width` (8) pixels on each of the four sides, and the
inner corner radius equals the outer corner radius minus exactly 5
(60 vs 55). -/
theorem C5_concentric_masks :
    inner_bbox.x0 = mask_bbox.x0 + border_width ∧
    inner_bbox.y0 = mask_bbox.y0 + border_width ∧
    inner_bbox.x1 = mask_bbox.x1 - border_width ∧
    inner_bbox.y1 = mask_bbox.y1 - border_width ∧
    inner_corner_radius = corner_radius - 5 ∧
    corner_radius = 60 ∧ inner_corner_radius = 55 ∧ border_width = 8 := by
  refine ⟨by decide, by decide, by decide, by decide, rfl, rfl, by decide, rfl⟩

/-- C8: for each glyph, the glow draws as `i` goes from 5 down to 1 are
strictly decreasing in stroke width / expansion (the cursor rectangles are
strictly nested) and strictly increasing in alpha, and the final top draw is
at full opacity (255) with the narrowest (base) extent. -/
theorem C8_glow_stack_monotone :
    List.Pairwise (· > ·) (chevronGlowDraws.map LineDraw.width) ∧
    List.Pairwise (· < ·) (chevronGlowDraws.map (fun d => d.color.a)) ∧
    (∀ d ∈ chevronGlowDraws, chevronTopDraw.width < d.width ∧ d.color.a < 255) ∧
    chevronTopDraw.width = arrow_width ∧ chevronTopDraw.color.a = 255 ∧
    List.Pairwise (· > ·) (cursorGlowDraws.map (fun d => d.x1 - d.x0)) ∧
    List.Pairwise (· < ·) (cursorGlowDraws.map (fun d => d.color.a)) ∧
    (∀ d ∈ cursorGlowDraws,
        d.x0 < cursorTopDraw.x0 ∧ cursorTopDraw.x1 < d.x1 ∧
        d.y0 < cursorTopDraw.y0 ∧ cursorTopDraw.y1 < d.y1 ∧ d.color.a < 255) ∧
    cursorTopDraw.color.a = 255 := by
  refine ⟨by decide, by decide, by decide, rfl, rfl, by decide, by decide,
    by decide, rfl⟩

/-- C3: the standalone PNG output is exactly the native 256x256 composited
canvas with no resampling applied to it, and it is pixel-identical to the
256x256 base frame stored in the ICO container (which the program obtains by
resizing that same canvas to its own size, the resize fast path returning it
unchanged). -/
theorem C3_png_equals_base_frame (filter : Img → Nat × Nat → Img) (canvas : Img)
    (hw : canvas.w = 256) (hh : canvas.h = 256) :
    png_image canvas = canvas ∧
    (png_image canvas).w = 256 ∧ (png_image canvas).h = 256 ∧
    (ico_frames filter canvas)[0]? = some (png_image canvas) := by
  refine ⟨rfl, hw, hh, ?_⟩
  simp [ico_frames, icon_images, sizes, resize, png_image, hw, hh]

/-- A concrete 256x256 canvas used to instantiate claims about the pipeline. -/
def constImg : Img := ⟨256, 256, fun _ _ => color_bg⟩

theorem C3_witness :
    png_image constImg = constImg ∧
    (png_image constImg).w = 256 ∧ (png_image constImg).h = 256 ∧
    (ico_frames (fun img _ => img) constImg)[0]? = some (png_image constImg) :=
  C3_png_equals_base_frame (fun img _ => img) constImg rfl rfl

/-- C6: the output-size list has exactly 6 entries, every entry is square,
the size sequence is strictly descending (256, 128, 64, 48, 32, 16), the
first entry equals the native canvas size 256, and one resized frame per
entry is placed into the ICO container in that order. -/
theorem C6_output_sizes (filter : Img → Nat × Nat → Img) (canvas : Img) :
    sizes.length = 6 ∧
    (∀ s ∈ sizes, s.1 = s.2) ∧
    List.Pairwise (· > ·) (sizes.map Prod.fst) ∧
    sizes.map Prod.fst = [256, 128, 64, 48, 32, 16] ∧
    sizes.head? = some (size, size) ∧
    (icon_images filter canvas).length = sizes.length ∧
    icon_images filter canvas =
      [resize filter canvas (256, 256), resize filter canvas (128, 128),
       resize filter canvas (64, 64), resize filter canvas (48, 48),
       resize filter canvas (32, 32), resize filter canvas (16, 16)] ∧
    ico_frames filter canvas = icon_images filter canvas := by
  refine ⟨rfl, by decide, by decide, rfl, rfl, rfl, rfl, rfl⟩

/-- C7: the paste of the dark panel through the inner mask (performed on the
canvas already holding the gradient clipped by the outer mask) changes only
pixels where the inner mask is nonzero: every pixel with inner mask value 0 —
in particular every pixel outside the inner rounded rectangle, such as the
gradient border ring between the inner and outer mask boundaries — has the
same colour before and after that paste. -/
theorem C7_inner_paste_frame (x y : Nat)
    (h0 : innerMaskValue x y = 0 ∨
      inRoundedRect inner_bbox (inner_corner_radius : Int) x y = false) :
    innerMaskValue x y = 0 ∧
    icon_shape_paneled.px x y = icon_shape_bordered.px x y := by
  have hz : innerMaskValue x y = 0 := by
    rcases h0 with h | h
    · exact h
    · simp [innerMaskValue, roundedMaskValue, h]
  exact ⟨hz, by simp [icon_shape_paneled, pasteMask, hz, blendColor_zero]⟩

theorem C7_witness :
    innerMaskValue 24 128 = 0 ∧
    icon_shape_paneled.px 24 128 = icon_shape_bordered.px 24 128 :=
  C7_inner_paste_frame 24 128 (Or.inl (by decide))

/-- Helper: `generate_app_icon` always succeeds and leaves the filesystem in
the state fully determined by the drawing primitives alone. -/
theorem generate_app_icon_ok (R : Raster) (fs : FsState) :
    generate_app_icon R fs =
      .ok ⟨true, some (ico_frames R.filter (icon_shape R)),
           some (png_image (icon_shape R))⟩ := by
  obtain ⟨d, i, p⟩ := fs
  cases d <;> simp [generate_app_icon, ensure_output_dir, makedirs, Except.map]

/-- C4: the generator is deterministic — its parameters are hard-coded
constants, so two runs started from any two prior filesystem states succeed
and produce identical results: the same composited canvas and byte-identical
contents for both output files. -/
theorem C4_deterministic (R : Raster) (fs1 fs2 : FsState) :
    generate_app_icon R fs1 = generate_app_icon R fs2 := by
  rw [generate_app_icon_ok, generate_app_icon_ok]

/-- C9: directory creation is idempotent — running the guarded creation on
any filesystem state succeeds (never raises) and results in the directory
existing with everything else unchanged, and running it again on the
resulting state succeeds and changes nothing. -/
theorem C9_idempotent_directory_creation (fs : FsState) :
    ensure_output_dir fs = .ok { fs with dirExists := true } ∧
    ensure_output_dir { fs with dirExists := true } =
      .ok { fs with dirExists := true } := by
  obtain ⟨d, i, p⟩ := fs
  cases d <;> simp [ensure_output_dir, makedirs]

end IconGen
